import Mathlib

/-!
# Verification of the Inti Lightboard PWA state-synchronization core

Shallow embedding of the client-side real-time state synchronization core:
the session resolver (`useUCO.tsx` / `getSessionId`), the outbound content
sanitizer (`sanitizeUserContent`), the UCO v15 snapshot construction and the
WebSocket frame handler (`uco_debug_fix.js` hook body), the reconnect guard of
the communication provider (`IntiCommunicationProvider.tsx` / `ws.onclose`),
and the conversation-window maintenance of `UCOManager.addConversationTurn`
(`ucoService.ts`).

JavaScript runtime values are modelled by the inductive `Value`; JS truthiness,
`||`, property access (plain and optional-chained), object spread and
`JSON.stringify` are modelled by executable functions over `Value`.  Machine
state mutated by the hook (React state, refs, pending timers) is modelled as an
explicit record `SyncState`; timers and outbound sends appear as `Effect`s
emitted by the pure step function, and the single-threaded event loop is a
fold over an explicit list of `Event`s.
-/

namespace IntiSync

/-- A JSON-ish JavaScript runtime value (what flows through the hook).
Numbers are modelled as integers: every number the modelled code produces or
tests (lengths, ids, timestamps, the literal `0`) is integral. -/
inductive Value where
  | vNull
  | vUndefined
  | vBool (b : Bool)
  | vInt (n : Int)
  | vStr (s : String)
  | vArr (elems : List Value)
  | vObj (fields : List (String × Value))

/-- Association-list representation of a JS object's own enumerable fields.
JS objects cannot carry duplicate keys, so all `Obj` values arising from
parsed frames have pairwise distinct keys; lookups take the first match. -/
abbrev Obj := List (String × Value)

/-- JS truthiness (`Boolean(v)`): `null`, `undefined`, `false`, `0` and `""`
are falsy, every object and array is truthy. -/
def truthy : Value → Bool
  | .vNull => false
  | .vUndefined => false
  | .vBool b => b
  | .vInt n => n != 0
  | .vStr s => s != ""
  | .vArr _ => true
  | .vObj _ => true

/-- JS `a || b`. -/
def jsOr (a b : Value) : Value := if truthy a then a else b

/-- First-match lookup in an object's field list. -/
def oLookup (o : Obj) (k : String) : Option Value :=
  (o.find? (fun p => p.1 == k)).map (fun p => p.2)

/-- JS property access `v[k]` as used by the hook, total (`undefined` when the
receiver has no such own property; `length` is materialized for strings and
arrays).  The modelled code only dereferences values it has guarded to be
non-nullish, so the nullish cases return `undefined` rather than throwing. -/
def getF (v : Value) (k : String) : Value :=
  match v with
  | .vObj fs => (oLookup fs k).getD .vUndefined
  | .vStr s => if k == "length" then .vInt s.length else .vUndefined
  | .vArr xs => if k == "length" then .vInt xs.length else .vUndefined
  | _ => .vUndefined

/-- Chained (optional) property access `v?.k₁?.k₂…`. -/
def getPath (v : Value) : List String → Value
  | [] => v
  | k :: ks => getPath (getF v k) ks

/-- JS `x?.length` for a value already fetched: `undefined` when nullish,
otherwise the `length` property. -/
def lenOf (v : Value) : Value :=
  match v with
  | .vNull => .vUndefined
  | .vUndefined => .vUndefined
  | _ => getF v "length"

/-- JS property assignment on an object's field list: overwrite in place if
the key exists, append otherwise. -/
def setFields : Obj → String → Value → Obj
  | [], k, x => [(k, x)]
  | (k0, v0) :: rest, k, x =>
    if k0 == k then (k0, x) :: rest else (k0, v0) :: setFields rest k x

/-- JS property assignment `v[k] = x`; a no-op on non-objects (the modelled
code only assigns to values it obtained as objects). -/
def setF (v : Value) (k : String) (x : Value) : Value :=
  match v with
  | .vObj fs => .vObj (setFields fs k x)
  | _ => v

/-- Whether an object value has an own property `k`. -/
def hasKey (v : Value) (k : String) : Bool :=
  match v with
  | .vObj fs => fs.any (fun p => p.1 == k)
  | _ => false

/-- Update the value found at an existing object path, leaving the input
unchanged when the path does not exist.  This models in-place mutation of a
subobject reached through an alias (the `rawUser.bio = …` writes of the
`uco.state` handler write through into `message.data.components.…`). -/
def updAt (v : Value) : List String → (Value → Value) → Value
  | [], f => f v
  | k :: ks, f => if hasKey v k then setF v k (updAt (getF v k) ks f) else v

/-- `Object.keys(v)`: field names of an object, index strings for arrays and
strings, `[]` for primitives. -/
def objKeys (v : Value) : List String :=
  match v with
  | .vObj fs => fs.map (fun p => p.1)
  | .vArr xs => (List.range xs.length).map (fun i => toString i)
  | .vStr s => (List.range s.length).map (fun i => toString i)
  | _ => []

/-- The own enumerable fields contributed by `...v` inside an object literal
(object spread): fields for objects, index/character entries for arrays and
strings, nothing for other primitives. -/
def toSpreadFields (v : Value) : Obj :=
  match v with
  | .vObj fs => fs
  | .vArr xs => xs.enum.map (fun p => (toString p.1, p.2))
  | .vStr s => s.toList.enum.map (fun p => (toString p.1, Value.vStr (String.singleton p.2)))
  | _ => []

/-- JS object spread `{...o, ...u}` on field lists: keys of `o` keep their
position but take the value from `u` when `u` also has the key; keys only in
`u` are appended in order. -/
def mergeObj (o u : Obj) : Obj :=
  o.map (fun p => (p.1, (oLookup u p.1).getD p.2)) ++
    u.filter (fun q => (oLookup o q.1).isNone)

/-- JS `{...comp, ...updates}` where `comp` is an arbitrary runtime value. -/
def spreadMerge (comp : Value) (updates : Obj) : Value :=
  .vObj (mergeObj (toSpreadFields comp) updates)

/-- Is the value `null` or `undefined`? -/
def isNullish : Value → Bool
  | .vNull => true
  | .vUndefined => true
  | _ => false

/-- JS string coercion `String(v)` / template interpolation, for the value
shapes the hook interpolates.  Array elements coerce recursively with nullish
elements rendered empty, matching `Array.prototype.toString`. -/
def toStr (v : Value) : String :=
  match v with
  | .vNull => "null"
  | .vUndefined => "undefined"
  | .vBool b => if b then "true" else "false"
  | .vInt n => toString n
  | .vStr s => s
  | .vArr xs =>
    String.intercalate ","
      (xs.attach.map (fun x => if isNullish x.1 then "" else toStr x.1))
  | .vObj _ => "[object Object]"
termination_by sizeOf v
decreasing_by
  have hm := List.sizeOf_lt_of_mem x.2
  simp only [Value.vArr.sizeOf_spec]
  omega

/-- Left and right curly-brace characters (used when rendering JSON text). -/
def lb : String := String.singleton (Char.ofNat 123)

def rb : String := String.singleton (Char.ofNat 125)

/-- One hexadecimal digit. -/
def hexDigit (n : Nat) : Char :=
  if n < 10 then Char.ofNat (48 + n) else Char.ofNat (87 + n)

/-- JSON string escaping as performed by `JSON.stringify`. -/
def jsonEscapeChar (c : Char) : String :=
  if c = '"' then "\\\""
  else if c = '\\' then "\\\\"
  else if c = '\n' then "\\n"
  else if c = '\r' then "\\r"
  else if c = '\t' then "\\t"
  else if c.val = 8 then "\\b"
  else if c.val = 12 then "\\f"
  else if c.val < 32 then
    "\\u00" ++ String.singleton (hexDigit (c.toNat / 16)) ++
      String.singleton (hexDigit (c.toNat % 16))
  else String.singleton c

def jsonQuote (s : String) : String :=
  "\"" ++ String.join (s.toList.map jsonEscapeChar) ++ "\""

def spaces (n : Nat) : String := String.mk (List.replicate n ' ')

/-- `JSON.stringify(v, null, 2)` at nesting depth `ind` (in spaces): `none`
models the `undefined` result; `undefined` members of objects are omitted and
`undefined` elements of arrays render as `null`. -/
def stringify2 (ind : Nat) (v : Value) : Option String :=
  match v with
  | .vUndefined => none
  | .vNull => some "null"
  | .vBool b => some (if b then "true" else "false")
  | .vInt n => some (toString n)
  | .vStr s => some (jsonQuote s)
  | .vArr xs =>
    let items := xs.attach.map (fun x => (stringify2 (ind + 2) x.1).getD "null")
    some (if items.isEmpty then "[]"
      else "[\n" ++
        String.intercalate ",\n" (items.map (fun it => spaces (ind + 2) ++ it)) ++
        "\n" ++ spaces ind ++ "]")
  | .vObj fs =>
    let items := fs.attach.filterMap (fun x =>
      (stringify2 (ind + 2) x.1.2).map
        (fun sv => spaces (ind + 2) ++ jsonQuote x.1.1 ++ ": " ++ sv))
    some (if items.isEmpty then lb ++ rb
      else lb ++ "\n" ++ String.intercalate ",\n" items ++ "\n" ++ spaces ind ++ rb)
termination_by sizeOf v
decreasing_by
  · have hm := List.sizeOf_lt_of_mem x.2
    simp only [Value.vArr.sizeOf_spec]
    omega
  · have hm := List.sizeOf_lt_of_mem x.2
    have hp : sizeOf x.1.2 < sizeOf x.1 := by
      obtain ⟨k, w⟩ := x.1
      simp only [Prod.mk.sizeOf_spec]
      omega
    simp only [Value.vObj.sizeOf_spec]
    omega

/-! ## Outbound content sanitizer (`sanitizeUserContent`)

The source tests six regular expressions against string content:
`/^(system|assistant|instruction):/i`, `/\[INST\]/`, `/<\|.*?\|>/`,
`/###\s*(System|Instruction)/i`, `/ignore previous instructions/i`,
`/disregard above/i`.  Each is embedded as an executable scanner over the
character list.  Case-insensitivity without the `u` flag canonicalizes ASCII
letters only, so lowering A–Z is exact. -/

/-- Does `pat` occur as a contiguous subsequence? -/
def containsSeq (pat : List Char) : List Char → Bool
  | [] => pat.isEmpty
  | c :: rest => pat.isPrefixOf (c :: rest) || containsSeq pat rest

/-- Characters the JS regex `.` does not match (line terminators). -/
def isNl (c : Char) : Bool :=
  c = '\n' || c = '\r' || c.val = 0x2028 || c.val = 0x2029

/-- After a `<|`, is there a closing `|>` with no line terminator before it?
(The body of `/<\|.*?\|>/`.) -/
def pipeClose : List Char → Bool
  | '|' :: '>' :: _ => true
  | c :: rest => if isNl c then false else pipeClose rest
  | [] => false

/-- `/<\|.*?\|>/.test` -/
def hasAngularPipe : List Char → Bool
  | '<' :: '|' :: rest => pipeClose rest || hasAngularPipe ('|' :: rest)
  | _ :: rest => hasAngularPipe rest
  | [] => false

/-- The JS regex `\s` character class. -/
def isJsSpace (c : Char) : Bool :=
  c.val = 9 || c.val = 10 || c.val = 11 || c.val = 12 || c.val = 13 || c.val = 32 ||
  c.val = 0xa0 || c.val = 0x1680 || (0x2000 ≤ c.val && c.val ≤ 0x200a) ||
  c.val = 0x2028 || c.val = 0x2029 || c.val = 0x202f || c.val = 0x205f ||
  c.val = 0x3000 || c.val = 0xfeff

/-- After a `###` (on the lowered text): skip `\s*`, then require `system` or
`instruction`. -/
def afterHashMatch (l : List Char) : Bool :=
  let t := l.dropWhile isJsSpace
  "system".toList.isPrefixOf t || "instruction".toList.isPrefixOf t

/-- `/###\s*(System|Instruction)/i.test`, run on the ASCII-lowered text. -/
def hashInstr : List Char → Bool
  | '#' :: '#' :: '#' :: rest => afterHashMatch rest || hashInstr ('#' :: '#' :: rest)
  | _ :: rest => hashInstr rest
  | [] => false

def asciiLower (c : Char) : Char :=
  if 'A' ≤ c ∧ c ≤ 'Z' then Char.ofNat (c.toNat + 32) else c

/-- Whether any of the six dangerous patterns matches `s` (the loop of
`sanitizeUserContent` returns the marker on the first match, which is
equivalent to this disjunction). -/
def dangerousB (s : String) : Bool :=
  let l := s.toList
  let low := l.map asciiLower
  ("system:".toList.isPrefixOf low || "assistant:".toList.isPrefixOf low ||
    "instruction:".toList.isPrefixOf low) ||
  containsSeq "[INST]".toList l ||
  hasAngularPipe l ||
  hashInstr low ||
  containsSeq "ignore previous instructions".toList low ||
  containsSeq "disregard above".toList low

/-- The fixed replacement the sanitizer substitutes for matching content. -/
def filteredMarker : String := "[Content filtered for security]"

/-- `sanitizeUserContent`: non-strings pass through; a string matching any
dangerous pattern is replaced by the fixed marker. -/
def sanitizeUserContent (content : Value) : Value :=
  match content with
  | .vStr s => if dangerousB s then .vStr filteredMarker else .vStr s
  | v => v

/-! ## Derived views (`extractFacts`, `generateMinimalMarkdown`,
`generateRetrievalFormat`) -/

/-- `conversation.messages?.length || conversation.recent?.length || 0`. -/
def msgCountOf (conversation : Value) : Value :=
  jsOr (lenOf (getF conversation "messages"))
    (jsOr (lenOf (getF conversation "recent")) (.vInt 0))

/-- `extractFacts(components)`: atomic fact strings for retrieval. -/
def extractFacts (components : Value) : List String :=
  let user := jsOr (getPath components ["user", "data"])
    (jsOr (getF components "user") (.vObj []))
  let topic := jsOr (getPath components ["topic", "data"])
    (jsOr (getF components "topic") (.vObj []))
  let conversation := jsOr (getF components "conversation") (.vObj [])
  (if truthy (jsOr (getF user "displayName") (getF user "display_name")) then
    ["User is " ++ toStr (jsOr (getF user "displayName") (getF user "display_name"))]
   else []) ++
  (if truthy (getF user "bio") then ["User role: " ++ toStr (getF user "bio")] else []) ++
  (if truthy (getF user "intis_earned_total") then
    [toStr (getF user "intis_earned_total") ++ " Intis earned"] else []) ++
  (if truthy (getF user "github_username") then
    ["GitHub: " ++ toStr (getF user "github_username")] else []) ++
  (if truthy (jsOr (getF user "currentDraftUuid") (getF user "current_draft_uuid")) then
    ["Has active draft"] else []) ++
  (if truthy (jsOr (getF topic "title") (getF topic "title_final")) then
    ["Working on: " ++ toStr (jsOr (getF topic "title") (getF topic "title_final"))]
   else []) ++
  (if truthy (jsOr (getF topic "status") (getF topic "stage")) then
    ["Topic status: " ++ toStr (jsOr (getF topic "status") (getF topic "stage"))]
   else []) ++
  (if truthy (getF topic "version") then
    ["Topic version: " ++ toStr (getF topic "version")] else []) ++
  [toStr (msgCountOf conversation) ++ " messages in conversation",
   "Mode: " ++ toStr (jsOr (getF conversation "mode") (.vStr "text"))]

/-- `generateMinimalMarkdown(components)`: the compact markdown view. -/
def generateMinimalMarkdown (components : Value) : String :=
  let user := jsOr (getPath components ["user", "data"])
    (jsOr (getF components "user") (.vObj []))
  let topic := jsOr (getPath components ["topic", "data"])
    (jsOr (getF components "topic") (.vObj []))
  let conversation := jsOr (getF components "conversation") (.vObj [])
  let userName := jsOr (getF user "displayName") (jsOr (getF user "display_name")
    (jsOr (getF user "username") (.vStr "Unknown")))
  let lines : List String :=
    ["# UCO State\n", "## User", "- " ++ toStr userName] ++
    (if truthy (getF user "bio") then ["- " ++ toStr (getF user "bio")] else []) ++
    (if truthy (getF user "intis_earned_total") then
      ["- " ++ toStr (getF user "intis_earned_total") ++ " Intis"] else []) ++
    (if truthy (jsOr (getF topic "loaded") (getF topic "uuid")) then
      ["\n## Topic",
       "- " ++ toStr (jsOr (getF topic "title") (jsOr (getF topic "title_final") (.vStr "Untitled"))),
       "- " ++ toStr (jsOr (getF topic "status") (jsOr (getF topic "stage") (.vStr "idle")))]
     else []) ++
    ["\n## State",
     "- Messages: " ++ toStr (msgCountOf conversation),
     "- Mode: " ++ toStr (jsOr (getF conversation "mode") (.vStr "text"))]
  String.intercalate "\n" lines

/-- JS `v > 0` for the (numeric) message count. -/
def vGtZero (v : Value) : Bool :=
  match v with
  | .vInt n => 0 < n
  | _ => false

/-- `generateRetrievalFormat(uco)`: the retrieval-oriented view.  Note the
function dereferences `uco?.components?.…`; both call sites in the hook pass
the *components* object itself, so these lookups resolve to `undefined` and
the rendered view is degenerate — the embedding keeps the source's shape. -/
def generateRetrievalFormat (uco : Value) : String :=
  let user := getPath uco ["components", "user"]
  let topic := getPath uco ["components", "topic"]
  let conversation := getPath uco ["components", "conversation"]
  let msgCount := jsOr (lenOf (getF conversation "recent")) (.vInt 0)
  let keyData := Value.vObj
    [("userId", getF user "id"), ("topicId", getF topic "uuid"),
     ("messages", msgCount), ("mode", getF conversation "mode")]
  "## Context\n" ++
  "- User: " ++ toStr (jsOr (getF user "name") (.vStr "Unknown")) ++
  (if truthy (getF user "bio") then " (" ++ toStr (getF user "bio") ++ ")" else "") ++
  "\n" ++
  (if truthy (getF topic "loaded") then
    "- Topic: " ++ toStr (jsOr (getF topic "title") (.vStr "Untitled")) ++
      " [" ++ toStr (getF topic "stage") ++ "]\n"
   else "") ++
  "- Chat: " ++ (if vGtZero msgCount then toStr msgCount ++ " msgs" else "None") ++ "\n" ++
  "\n```json\n" ++ ((stringify2 0 keyData).getD "undefined") ++ "\n```"

/-! ## The v15 snapshot (`UCOv15`) and its construction from frames -/

/-- The three per-component field mappings of a snapshot.  Their runtime
schema is owned by the backend, so each is an opaque `Value`. -/
structure Components where
  user : Value
  topic : Value
  conversation : Value

/-- The `{user, topic, conversation}` object the hook passes to the view
generators. -/
def componentsVal (cs : Components) : Value :=
  .vObj [("user", cs.user), ("topic", cs.topic), ("conversation", cs.conversation)]

/-- `UCOv15.data.metadata` (the `type`/`version` literals and the constant
`privacy`/`confidence` markers are reproduced as built). -/
structure Metadata where
  userId : Value
  sessionId : Option String
  subscriptions : List String
  privacy : String
  confidence : ℚ
  totalFields : Nat

/-- `UCOv15.data` (the `instructions` array is always empty in the source and
is omitted). -/
structure UCOData where
  timestamp : Nat
  components : Components
  metadata : Metadata
  facts : List String

structure Views where
  minimal : String
  retrieval : String
  summary : String

/-- The canonical snapshot object the hook stores in state and in
`currentUCORef`. -/
structure UCOv15 where
  data : UCOData
  views : Views

/-- The in-place sanitization the `uco.state` handler performs on the raw
message before reading it again for facts/views: `rawUser.bio`,
`rawTopic.title` and `rawTopic.content` are filtered where present and
truthy, writing through the alias into `message.data.components.…`. -/
def mutSanitize (v : Value) (k : String) : Value :=
  if truthy (getF v k) then setF v k (sanitizeUserContent (getF v k)) else v

def sanitizeStateData (d : Value) : Value :=
  let d1 := updAt d ["components", "user", "data"] (fun u => mutSanitize u "bio")
  updAt d1 ["components", "topic", "data"]
    (fun t => mutSanitize (mutSanitize t "title") "content")

/-- The `uco.state` case of `handleWebSocketMessage`: build the v15 snapshot
from the frame's `data` payload at processing time `now`, with the session id
the hook's `getSessionId()` returned. -/
def buildV15 (d : Value) (now : Nat) (sid : Option String) : UCOv15 :=
  let d' := sanitizeStateData d
  let rawUser := jsOr (getPath d' ["components", "user", "data"]) (.vObj [])
  let rawTopic := jsOr (getPath d' ["components", "topic", "data"]) (.vObj [])
  let rawConversation := jsOr (getPath d' ["components", "conversation"]) (.vObj [])
  let totalFields := (objKeys rawUser).length + (objKeys rawTopic).length +
    (objKeys rawConversation).length
  { data :=
    { timestamp := now
      components := { user := rawUser, topic := rawTopic, conversation := rawConversation }
      metadata :=
      { userId := jsOr (getF rawUser "id") (jsOr (getPath d' ["metadata", "userId"]) (.vInt 0))
        sessionId := sid
        subscriptions :=
          if truthy (getPath d' ["metadata", "subscription"]) then
            objKeys (getPath d' ["metadata", "subscription"])
          else []
        privacy := "private"
        confidence := 95 / 100
        totalFields := totalFields }
      facts := extractFacts (getF d' "components") }
    views :=
    { minimal := generateMinimalMarkdown (getF d' "components")
      retrieval := generateRetrievalFormat (getF d' "components")
      summary := toStr (jsOr (getF rawUser "displayName") (.vStr "User")) ++ " | " ++
        toStr (jsOr (getF rawTopic "title") (.vStr "No topic")) ++ " | " ++
        toStr (jsOr (lenOf (getF rawConversation "messages")) (.vInt 0)) ++ " msgs" } }

/-- The merge step of the `uco.field_update` case: shallow-merge `updates`
into the named component of a copy of the current snapshot (unknown component
names merge nothing but still refresh timestamp, views and facts, as in the
source), then regenerate views and facts. -/
def applyFieldUpdate (u : UCOv15) (comp : String) (updates : Obj) (now : Nat) : UCOv15 :=
  let cs := u.data.components
  let cs' :=
    if comp = "user" then { cs with user := spreadMerge cs.user updates }
    else if comp = "topic" then { cs with topic := spreadMerge cs.topic updates }
    else if comp = "conversation" then
      { cs with conversation := spreadMerge cs.conversation updates }
    else cs
  let cv := componentsVal cs'
  { data := { u.data with components := cs', timestamp := now, facts := extractFacts cv }
    views :=
    { minimal := generateMinimalMarkdown cv
      retrieval := generateRetrievalFormat cv
      summary := toStr (jsOr (getF cs'.user "displayName") (.vStr "User")) ++ " | " ++
        toStr (jsOr (getF cs'.topic "title") (.vStr "No topic")) ++ " | " ++
        toStr (jsOr (lenOf (getF cs'.conversation "messages")) (.vInt 0)) ++ " msgs" } }

/-! ## The synchronizer as an explicit event machine

The hook body of `uco_debug_fix.js` holds its mutable state in React state
and refs.  `SyncState` collects exactly that state; `handleMessage` is the
pure image of `handleWebSocketMessage` for the state-relevant frames, emitting
`Effect`s for outbound sends and timer manipulation.  A `setUCO(x)` call
records `x` in `latest`; the separate `render` step publishes it to the `uco`
the handler closure reads — the closure does not see a `setUCO` value until a
re-render, which is exactly the race `currentUCORef` exists to bridge. -/

/-- The inbound frames relevant to synchronizer state.  Per the wire
protocol, a `uco.field_update` frame carries a component name and a field
mapping.  (An absent/empty component name is falsy in the handler's guards.) -/
inductive Msg where
  | state (d : Value)
  | fieldUpdate (component : String) (updates : Obj)
  | subscribed

/-- Externally visible actions of one handler invocation. -/
inductive Effect where
  | sendGetState
  | sendSubscribe
  | scheduleRetry (m : Msg)
  | cancelDebounce
  | scheduleDebounce (m : Msg)
  | commit (u : UCOv15)

/-- The hook's mutable cell state: `uco` is the React state as seen by the
handler closure, `latest` the most recent `setUCO` argument not yet rendered,
`ref` is `currentUCORef.current`, `lastUpdate` is `lastUpdateRef.current`,
`debounce` tracks the deferred `uco.state` frame whose timer
`updateDebounceRef.current` holds, `subscribed` is `subscribedRef.current`,
and `wsOpen` — whether `wsRef.current` exists in state `OPEN`. -/
structure SyncState where
  uco : Option UCOv15
  latest : Option UCOv15
  ref : Option UCOv15
  lastUpdate : Nat
  debounce : Option Msg
  subscribed : Bool
  wsOpen : Bool

/-- JS `a || b` on the two snapshot cells (a snapshot object is truthy). -/
def optOr (a b : Option UCOv15) : Option UCOv15 :=
  match a with
  | some x => some x
  | none => b

/-- `requestInitialState()`: sends `uco.get_state` when the socket is open,
otherwise does nothing. -/
def requestInitialState (s : SyncState) : List Effect :=
  if s.wsOpen then [Effect.sendGetState] else []

/-- `subscribeToUpdates()`: drop the call if the socket is not open or
already subscribed, otherwise send one `uco.subscribe` frame and set the
subscribed flag (after sending). -/
def subscribeToUpdates (s : SyncState) : SyncState × List Effect :=
  if ¬ s.wsOpen then (s, [])
  else if s.subscribed then (s, [])
  else ({ s with subscribed := true }, [Effect.sendSubscribe])

/-- `handleWebSocketMessage` on the state-relevant frames, at wall-clock time
`now`, with `sid` the value `getSessionId()` resolves to. -/
def handleMessage (sid : Option String) (s : SyncState) (m : Msg) (now : Nat) :
    SyncState × List Effect :=
  match m with
  | .state _d =>
    if now - s.lastUpdate < 100 then
      ({ s with debounce := some m },
        (if s.debounce.isSome then [Effect.cancelDebounce] else []) ++
          [Effect.scheduleDebounce m])
    else
      let v := buildV15 _d now sid
      ({ s with lastUpdate := now, latest := some v, ref := some v }, [Effect.commit v])
  | .fieldUpdate comp updates =>
    match optOr s.ref s.uco with
    | none =>
      if comp ≠ "" then (s, requestInitialState s ++ [Effect.scheduleRetry m])
      else (s, [])
    | some u =>
      if comp ≠ "" then
        let u' := applyFieldUpdate u comp updates now
        ({ s with latest := some u', ref := some u' }, [Effect.commit u'])
      else (s, [])
  | .subscribed => ({ s with subscribed := true }, [])

/-- The debounce timer's callback: re-run the handler on the deferred frame,
then null out `updateDebounceRef`. -/
def debounceFire (sid : Option String) (s : SyncState) (m : Msg) (now : Nat) :
    SyncState × List Effect :=
  let r := handleMessage sid s m now
  ({ r.1 with debounce := none }, r.2)

/-- A React re-render: the handler closure now sees the last `setUCO` value. -/
def render (s : SyncState) : SyncState :=
  { s with uco := optOr s.latest s.uco }

/-- One task on the event loop: frame delivery, a fired retry or debounce
timer, or a render flush. -/
inductive Event where
  | recv (m : Msg) (t : Nat)
  | retryFire (m : Msg) (t : Nat)
  | debFire (m : Msg) (t : Nat)
  | render

def stepE (sid : Option String) (s : SyncState) : Event → SyncState × List Effect
  | .recv m t => handleMessage sid s m t
  | .retryFire m t => handleMessage sid s m t
  | .debFire m t => debounceFire sid s m t
  | .render => (render s, [])

/-- Run a list of event-loop tasks, concatenating emitted effects. -/
def runE (sid : Option String) (s : SyncState) : List Event → SyncState × List Effect
  | [] => (s, [])
  | e :: es =>
    let r := stepE sid s e
    let r' := runE sid r.1 es
    (r'.1, r.2 ++ r'.2)

/-- Count the `uco.get_state` sends in an effect trace. -/
def getStateCount (l : List Effect) : Nat :=
  (l.filter (fun e => match e with | .sendGetState => true | _ => false)).length

/-- Count the `uco.subscribe` sends in an effect trace. -/
def subscribeCount (l : List Effect) : Nat :=
  (l.filter (fun e => match e with | .sendSubscribe => true | _ => false)).length

/-- Count the scheduled field-update retries in an effect trace. -/
def retryCount (l : List Effect) : Nat :=
  (l.filter (fun e => match e with | .scheduleRetry _ => true | _ => false)).length

/-- The committed snapshots (each `setUCO`+ref publication after a
facts/views rebuild) in an effect trace, in order. -/
def commitsOf (l : List Effect) : List UCOv15 :=
  l.filterMap (fun e => match e with | .commit u => some u | _ => none)

/-- Iterate `subscribeToUpdates` n times, collecting sends. -/
def subscribeIter (s : SyncState) : Nat → SyncState × List Effect
  | 0 => (s, [])
  | n + 1 =>
    let r := subscribeToUpdates s
    let r' := subscribeIter r.1 n
    (r'.1, r.2 ++ r'.2)

/-- The outbound `uco.add_conversation` message shape. -/
structure AddConvMsg where
  mtype : String
  content : Value
  ctype : String
  role : String
  timestamp : Nat

/-- `addConversation(content, type, role)`: dropped when there is no socket
object or the session is unauthenticated; otherwise the content is sanitized
and the frame is sent. -/
def addConversation (wsPresent authenticated : Bool) (content : Value)
    (ctype role : String) (now : Nat) : Option AddConvMsg :=
  if ¬ wsPresent ∨ ¬ authenticated then none
  else some
    { mtype := "uco.add_conversation"
      content := sanitizeUserContent content
      ctype := ctype
      role := role
      timestamp := now }

/-! ## Session resolver (`useUCO.tsx` / `getSessionId`)

Reads the `session` URL parameter, then the structured `inti_auth` record in
`localStorage`/`sessionStorage`, then the legacy `intellipedia_session` keys.
A stored slot is `absent` (no entry, or the empty string — falsy in the `||`
chain and in the guards), `malformed` (present but `JSON.parse` throws; the
code clears it and falls through), or a parsed `record`. -/

/-- The `user` object inside a parsed `inti_auth` record.  JS truthiness of
`user.id` (a number) is `≠ 0`; of `user.username` (a string) is `≠ ""`. -/
structure AuthUser where
  id : Option Int
  username : Option String

/-- A parsed `inti_auth` record: `{authenticated, user, sessionId?}`.  This
resolver derives the pseudo-session from `user` and never reads an explicit
`sessionId` field. -/
structure AuthRecord where
  authenticated : Bool
  user : Option AuthUser
  sessionId : Option String

inductive StoredVal where
  | absent
  | malformed
  | record (r : AuthRecord)

/-- `localStorage.getItem(k) || sessionStorage.getItem(k)` on the two
`inti_auth` slots. -/
def firstStored : StoredVal → StoredVal → StoredVal
  | .absent, b => b
  | a, _ => a

structure ResolverEnv where
  urlSession : Option String
  authLocal : StoredVal
  authSession : StoredVal
  legacyLocal : Option String
  legacySession : Option String

def strTruthy : Option String → Bool
  | none => false
  | some s => s != ""

def uidTruthy : Option Int → Bool
  | none => false
  | some n => n != 0

/-- The stored-auth branch: with a parsed, authenticated record carrying a
user, derive `user_<id>` from a truthy id, else `username_<name>` from a
truthy username; in every other case fall through (returns `none`). -/
def resolveStoredAuth : StoredVal → Option String
  | .record r =>
    if r.authenticated then
      match r.user with
      | some u =>
        if uidTruthy u.id then some ("user_" ++ toString (u.id.getD 0))
        else if strTruthy u.username then some ("username_" ++ u.username.getD "")
        else none
      | none => none
    else none
  | _ => none

/-- The legacy fallback: `intellipedia_session` from local then session
storage. -/
def legacyOf (env : ResolverEnv) : Option String :=
  if strTruthy env.legacyLocal then env.legacyLocal
  else if strTruthy env.legacySession then env.legacySession
  else none

/-- `getSessionId()`: URL parameter first, then stored auth, then legacy
keys, else `null`. -/
def getSessionId (env : ResolverEnv) : Option String :=
  if strTruthy env.urlSession then env.urlSession
  else
    match resolveStoredAuth (firstStored env.authLocal env.authSession) with
    | some s => some s
    | none => legacyOf env

/-! ## Reconnect guard (`IntiCommunicationProvider.tsx` / `ws.onclose`) -/

/-- The provider state the close handler touches: whether a socket object is
installed and whether a reconnect timer is pending
(`reconnectTimeoutRef.current !== null`). -/
structure CommState where
  wsPresent : Bool
  reconnectPending : Bool

inductive CEffect where
  | scheduleReconnect

/-- `ws.onclose`: always drop the socket reference; schedule one reconnect
only when the close code is not the normal closure 1000 and no reconnect is
already pending. -/
def onClose (s : CommState) (code : Nat) : CommState × List CEffect :=
  let s0 : CommState := { s with wsPresent := false }
  if code ≠ 1000 ∧ ¬ s.reconnectPending then
    ({ s0 with reconnectPending := true }, [CEffect.scheduleReconnect])
  else (s0, [])

def reconnectSchedCount (l : List CEffect) : Nat :=
  (l.filter (fun e => match e with | .scheduleReconnect => true)).length

/-! ## Conversation window (`ucoService.ts` / `UCOManager.addConversationTurn`) -/

/-- A `ConversationTurn`. -/
structure ConvTurn where
  id : String
  ttype : String
  role : String
  content : String
  timestamp : Nat

/-- `components.conversation.data` as initialized by `initializeUCO` and
maintained by `addConversationTurn`. -/
structure ConversationData where
  mode : String
  recent : List ConvTurn
  summary : String
  intent : String
  sentiment : String

/-- `addConversationTurn`: push the turn, drop the oldest turn when the
window exceeds 50, and widen the mode to `mixed` when voice and text mix. -/
def addConversationTurn (c : ConversationData) (turn : ConvTurn) : ConversationData :=
  let recent1 := c.recent ++ [turn]
  let recent2 := if recent1.length > 50 then recent1.tail else recent1
  let mode' :=
    if turn.ttype = "voice" ∧ c.mode = "text" then "mixed"
    else if turn.ttype = "text" ∧ c.mode = "voice" then "mixed"
    else c.mode
  { c with recent := recent2, mode := mode' }

/-! ## Lemmas about the shallow merge -/

/-- Option fallback (`altO a b` is `a` unless `a` is `none`). -/
def altO {α : Type} (a b : Option α) : Option α :=
  match a with
  | some x => some x
  | none => b

/-- Per-key lookup on a value treated as a field mapping. -/
def vLookup (v : Value) (k : String) : Option Value :=
  oLookup (toSpreadFields v) k

theorem oLookup_append (a b : Obj) (k : String) :
    oLookup (a ++ b) k = altO (oLookup a k) (oLookup b k) := by
  induction a with
  | nil => simp [oLookup, altO]
  | cons p rest ih =>
    by_cases h : p.1 == k
    · simp [oLookup, List.find?, h, altO]
    · simpa [oLookup, List.find?, h, altO] using ih

theorem oLookup_override (o u : Obj) (k : String) :
    oLookup (o.map (fun p => (p.1, (oLookup u p.1).getD p.2))) k =
      (oLookup o k).map (fun v => (oLookup u k).getD v) := by
  induction o with
  | nil => simp [oLookup]
  | cons p rest ih =>
    by_cases h : p.1 == k
    · have hk : p.1 = k := by simpa using h
      subst hk
      simp [oLookup, List.find?, h]
    · simpa [oLookup, List.find?, h] using ih

theorem oLookup_filterAbsent (o u : Obj) (k : String) :
    oLookup (u.filter (fun q => (oLookup o q.1).isNone)) k =
      if (oLookup o k).isNone then oLookup u k else none := by
  induction u with
  | nil => simp [oLookup]
  | cons q rest ih =>
    rw [List.filter_cons]
    by_cases ho : (oLookup o q.1).isNone = true
    · rw [if_pos ho]
      by_cases hk : (q.1 == k) = true
      · have hq : q.1 = k := by simpa using hk
        subst hq
        rw [if_pos ho]
        simp [oLookup, List.find?, hk]
      · have h1 : oLookup (q :: rest.filter (fun q => (oLookup o q.1).isNone)) k =
            oLookup (rest.filter (fun q => (oLookup o q.1).isNone)) k := by
          simp [oLookup, List.find?, hk]
        have h2 : oLookup (q :: rest) k = oLookup rest k := by
          simp [oLookup, List.find?, hk]
        rw [h1, ih, h2]
    · rw [if_neg ho, ih]
      by_cases hk : (q.1 == k) = true
      · have hq : q.1 = k := by simpa using hk
        subst hq
        rw [if_neg ho, if_neg ho]
      · have h2 : oLookup (q :: rest) k = oLookup rest k := by
          simp [oLookup, List.find?, hk]
        rw [h2]

/-- The shallow-merge semantics of JS spread: lookups in `{...o, ...u}` hit
`u` first (update keys win) and fall back to `o`. -/
theorem oLookup_mergeObj (o u : Obj) (k : String) :
    oLookup (mergeObj o u) k = altO (oLookup u k) (oLookup o k) := by
  unfold mergeObj
  rw [oLookup_append, oLookup_override, oLookup_filterAbsent]
  cases ho : oLookup o k with
  | none => cases hu : oLookup u k <;> simp [altO, ho, hu]
  | some v0 => cases hu : oLookup u k <;> simp [altO, ho, hu]

theorem vLookup_spreadMerge (comp : Value) (updates : Obj) (k : String) :
    vLookup (spreadMerge comp updates) k = altO (oLookup updates k) (vLookup comp k) := by
  unfold vLookup spreadMerge toSpreadFields
  exact oLookup_mergeObj (toSpreadFields comp) updates k

/-- Select a named component of a snapshot (the three names the handler
recognizes). -/
def getComponent (cs : Components) (c : String) : Value :=
  if c = "user" then cs.user
  else if c = "topic" then cs.topic
  else if c = "conversation" then cs.conversation
  else .vUndefined

/-! ## Concrete fixtures used by witnesses and counterexamples -/

/-- A full-snapshot payload whose topic component is `{a:1, b:2}`. -/
def snapFixData : Value :=
  .vObj [("components", .vObj
    [("user", .vObj [("data", .vObj [("id", .vInt 9)])]),
     ("topic", .vObj [("data", .vObj [("a", .vInt 1), ("b", .vInt 2)])]),
     ("conversation", .vObj [("mode", .vStr "text")])])]

/-- The snapshot the hook builds from `snapFixData` at time 50. -/
def snapFix : UCOv15 := buildV15 snapFixData 50 none

/-- Hook state right after that snapshot was committed (ref published,
re-render not yet flushed). -/
def stWithSnap : SyncState :=
  { uco := none, latest := some snapFix, ref := some snapFix, lastUpdate := 50,
    debounce := none, subscribed := false, wsOpen := true }

/-- Hook state of a fresh connection before any snapshot. -/
def stNoSnap : SyncState :=
  { uco := none, latest := none, ref := none, lastUpdate := 0,
    debounce := none, subscribed := false, wsOpen := true }

/-- Hook state with a pending-or-confirmed subscription. -/
def stSubbed : SyncState :=
  { uco := none, latest := none, ref := none, lastUpdate := 0,
    debounce := none, subscribed := true, wsOpen := true }

/-- A field-update frame arriving before any snapshot. -/
def deltaFix : Msg := .fieldUpdate "topic" [("title", .vStr "Hello")]

/-- Two full-snapshot payloads 50 ms apart. -/
def stateA : Value := .vObj []

def stateB : Value := .vObj [("x", .vInt 1)]

/-! ## Step-reduction lemmas for the handler -/

theorem handleMessage_fieldUpdate_existing (sid : Option String) (s : SyncState)
    (comp : String) (upd : Obj) (now : Nat) (u : UCOv15)
    (h : optOr s.ref s.uco = some u) (hc : comp ≠ "") :
    handleMessage sid s (.fieldUpdate comp upd) now =
      ({ s with latest := some (applyFieldUpdate u comp upd now),
                ref := some (applyFieldUpdate u comp upd now) },
       [Effect.commit (applyFieldUpdate u comp upd now)]) := by
  unfold handleMessage
  rw [h]
  simp [hc]

theorem handleMessage_fieldUpdate_noState (sid : Option String) (s : SyncState)
    (comp : String) (upd : Obj) (now : Nat)
    (h : optOr s.ref s.uco = none) (hc : comp ≠ "") :
    handleMessage sid s (.fieldUpdate comp upd) now =
      (s, requestInitialState s ++ [Effect.scheduleRetry (.fieldUpdate comp upd)]) := by
  unfold handleMessage
  rw [h]
  simp [hc]

theorem handleMessage_state_process (sid : Option String) (s : SyncState)
    (d : Value) (now : Nat) (h : ¬ (now - s.lastUpdate < 100)) :
    handleMessage sid s (.state d) now =
      ({ s with lastUpdate := now, latest := some (buildV15 d now sid),
                ref := some (buildV15 d now sid) },
       [Effect.commit (buildV15 d now sid)]) := by
  simp only [handleMessage]
  rw [if_neg h]

theorem handleMessage_state_debounce (sid : Option String) (s : SyncState)
    (d : Value) (now : Nat) (h : now - s.lastUpdate < 100) :
    handleMessage sid s (.state d) now =
      ({ s with debounce := some (.state d) },
       (if s.debounce.isSome then [Effect.cancelDebounce] else []) ++
         [Effect.scheduleDebounce (.state d)]) := by
  simp only [handleMessage]
  rw [if_pos h]

/-! ## The claims -/

/-- C5 helper: once the subscribed flag is set, any number of further
`subscribeToUpdates` calls leave the state unchanged and send nothing. -/
theorem subscribeIter_of_subscribed (s : SyncState) (h : s.subscribed = true) :
    ∀ n : Nat, subscribeIter s n = (s, []) := by
  intro n
  induction n with
  | zero => rfl
  | succ n ih =>
    by_cases hw : s.wsOpen = true <;>
      simp [subscribeIter, subscribeToUpdates, h, hw, ih]

/-- C5 helper: any run of `subscribeToUpdates` calls sends at most one
subscribe frame. -/
theorem subscribeIter_count_le_one (s : SyncState) (n : Nat) :
    subscribeCount (subscribeIter s n).2 ≤ 1 := by
  induction n generalizing s with
  | zero => simp [subscribeIter, subscribeCount]
  | succ n ih =>
    by_cases hw : s.wsOpen = true
    · by_cases hs : s.subscribed = true
      · rw [subscribeIter_of_subscribed s hs]
        simp [subscribeCount]
      · have hstep : subscribeToUpdates s = ({ s with subscribed := true }, [Effect.sendSubscribe]) := by
          simp [subscribeToUpdates, hw, hs]
        have htail : subscribeIter { s with subscribed := true } n =
            ({ s with subscribed := true }, []) :=
          subscribeIter_of_subscribed _ rfl n
        simp [subscribeIter, hstep, htail, subscribeCount]
    · have hstep : subscribeToUpdates s = (s, []) := by
        simp [subscribeToUpdates, hw]
      have := ih s
      simp only [subscribeIter, hstep]
      simpa using this

/-- C5: calling `subscribe()` N ≥ 1 times sends at most one subscribe frame,
and sends none at all when a subscription is already pending or confirmed
(the `subscribedRef` flag is set). -/
theorem subscribe_idempotent (s : SyncState) (n : Nat) (hn : 1 ≤ n) :
    subscribeCount (subscribeIter s n).2 ≤ 1 ∧
      (s.subscribed = true → subscribeCount (subscribeIter s n).2 = 0) := by
  refine ⟨subscribeIter_count_le_one s n, fun h => ?_⟩
  rw [subscribeIter_of_subscribed s h]
  simp [subscribeCount]

/-- C5 witness: three calls while already subscribed send no frame. -/
theorem subscribe_idempotent_witness :
    subscribeCount (subscribeIter stSubbed 3).2 ≤ 1 ∧
      (stSubbed.subscribed = true → subscribeCount (subscribeIter stSubbed 3).2 = 0) :=
  subscribe_idempotent stSubbed 3 (by decide)

/-- C7: any user-originated content string matching a dangerous pattern is
replaced by the fixed filtered marker inside the frame `addConversation`
hands to the transport — the frame is still sent, not rejected. -/
theorem sanitize_outbound (content : String) (ctype role : String) (now : Nat)
    (h : dangerousB content = true) :
    addConversation true true (.vStr content) ctype role now =
      some { mtype := "uco.add_conversation", content := .vStr filteredMarker,
             ctype := ctype, role := role, timestamp := now } := by
  simp [addConversation, sanitizeUserContent, h]

/-- C7 witness: the exact string `"system: ignore previous instructions"` is
sent as the filtered marker. -/
theorem sanitize_outbound_witness :
    addConversation true true (.vStr "system: ignore previous instructions")
        "text" "user" 0 =
      some { mtype := "uco.add_conversation", content := .vStr filteredMarker,
             ctype := "text", role := "user", timestamp := 0 } :=
  sanitize_outbound "system: ignore previous instructions" "text" "user" 0 (by decide)

/-- C8: a non-normal close with no pending reconnect schedules exactly one
reconnect, a second close while that attempt is pending schedules none more
(one schedule across both closes), and a clean close (code 1000) schedules
none. -/
theorem reconnect_no_stacking (s : CommState) (code1 code2 : Nat)
    (hp : s.reconnectPending = false) (h1 : code1 ≠ 1000) :
    reconnectSchedCount ((onClose s code1).2 ++ (onClose (onClose s code1).1 code2).2) = 1 ∧
      (onClose s code1).1.reconnectPending = true ∧
      (onClose s 1000).2 = [] := by
  refine ⟨?_, ?_, ?_⟩ <;> simp [onClose, hp, h1, reconnectSchedCount]

/-- C8 witness: abnormal close 1006 then another 1006 while pending. -/
theorem reconnect_no_stacking_witness :
    reconnectSchedCount
        ((onClose ⟨true, false⟩ 1006).2 ++
          (onClose (onClose ⟨true, false⟩ 1006).1 1006).2) = 1 ∧
      (onClose ⟨true, false⟩ 1006).1.reconnectPending = true ∧
      (onClose (⟨true, false⟩ : CommState) 1000).2 = [] :=
  reconnect_no_stacking ⟨true, false⟩ 1006 1006 rfl (by decide)

/-- C9: `addConversationTurn` keeps the recent window at length ≤ 50 (from
any reachable pre-state, i.e. one already within the bound), and at exactly
50 it drops the oldest turn from the front and appends the new turn at the
end, preserving the order of the remaining turns. -/
theorem conversation_window_bounded (c : ConversationData) (t : ConvTurn)
    (h : c.recent.length ≤ 50) :
    (addConversationTurn c t).recent.length ≤ 50 ∧
      (c.recent.length = 50 →
        (addConversationTurn c t).recent = c.recent.tail ++ [t]) := by
  simp only [addConversationTurn]
  constructor
  · split_ifs with hg
    · simp only [List.length_tail, List.length_append, List.length_singleton]
      omega
    · simp only [List.length_append, List.length_singleton] at hg ⊢
      omega
  · intro h50
    have hg : (c.recent ++ [t]).length > 50 := by
      simp [h50]
    rw [if_pos hg]
    cases hc : c.recent with
    | nil => rw [hc] at h50; simp at h50
    | cons a as => simp [hc]

def turnOld : ConvTurn := { id := "1", ttype := "text", role := "user", content := "hi", timestamp := 0 }

def turnNew : ConvTurn := { id := "2", ttype := "text", role := "user", content := "new", timestamp := 1 }

/-- A conversation component already holding a full 50-turn window. -/
def convFull : ConversationData :=
  { mode := "text", recent := List.replicate 50 turnOld, summary := "",
    intent := "", sentiment := "neutral" }

/-- C9 witness: adding to a full 50-turn window keeps length 50 and shifts. -/
theorem conversation_window_bounded_witness :
    (addConversationTurn convFull turnNew).recent.length ≤ 50 ∧
      (convFull.recent.length = 50 →
        (addConversationTurn convFull turnNew).recent =
          convFull.recent.tail ++ [turnNew]) :=
  conversation_window_bounded convFull turnNew (by simp [convFull])

/-- C10 helper: the filtered marker matches none of the six patterns. -/
theorem marker_not_dangerous : dangerousB filteredMarker = false := by decide

/-- C10: the sanitizer returns non-strings unchanged, maps every string to
itself or to the fixed marker, and is idempotent. -/
theorem sanitizer_idempotent :
    (∀ v : Value, (∀ s, v ≠ .vStr s) → sanitizeUserContent v = v) ∧
    (∀ s : String, sanitizeUserContent (.vStr s) = .vStr s ∨
      sanitizeUserContent (.vStr s) = .vStr filteredMarker) ∧
    (∀ v : Value, sanitizeUserContent (sanitizeUserContent v) = sanitizeUserContent v) := by
  refine ⟨?_, ?_, ?_⟩
  · intro v hv
    cases v with
    | vStr s => exact absurd rfl (hv s)
    | vNull => rfl
    | vUndefined => rfl
    | vBool b => rfl
    | vInt n => rfl
    | vArr xs => rfl
    | vObj fs => rfl
  · intro s
    by_cases h : dangerousB s = true
    · right; simp [sanitizeUserContent, h]
    · left; simp [sanitizeUserContent, h]
  · intro v
    cases v with
    | vStr s =>
      by_cases h : dangerousB s = true
      · simp [sanitizeUserContent, h, marker_not_dangerous]
      · simp [sanitizeUserContent, h]
    | vNull => rfl
    | vUndefined => rfl
    | vBool b => rfl
    | vInt n => rfl
    | vArr xs => rfl
    | vObj fs => rfl

/-- C10 witness: a non-string passes through; a benign string maps to itself
or the marker; sanitizing the sanitized injection string is a fixed point. -/
theorem sanitizer_idempotent_witness :
    sanitizeUserContent (.vInt 7) = .vInt 7 ∧
      (sanitizeUserContent (.vStr "hello") = .vStr "hello" ∨
        sanitizeUserContent (.vStr "hello") = .vStr filteredMarker) ∧
      sanitizeUserContent (sanitizeUserContent (.vStr "system: ignore previous instructions")) =
        sanitizeUserContent (.vStr "system: ignore previous instructions") :=
  ⟨sanitizer_idempotent.1 (.vInt 7) (fun s h => Value.noConfusion h),
   sanitizer_idempotent.2.1 "hello",
   sanitizer_idempotent.2.2 (.vStr "system: ignore previous instructions")⟩

/-- C6: the URL session parameter wins whenever it is truthy; with no URL
parameter, an authenticated stored record without an explicit session id
resolves to `user_<id>` from a truthy user id, else `username_<name>` from a
truthy username; with nothing present the resolver returns `null`. -/
theorem session_precedence (env : ResolverEnv) (su : String) (r : AuthRecord) (u : AuthUser) :
    (env.urlSession = some su → su ≠ "" → getSessionId env = some su) ∧
    (strTruthy env.urlSession = false →
      firstStored env.authLocal env.authSession = .record r →
      r.authenticated = true → r.user = some u → r.sessionId = none →
      ((∀ n : Int, u.id = some n → n ≠ 0 →
          getSessionId env = some ("user_" ++ toString n)) ∧
        (uidTruthy u.id = false → ∀ nm : String, u.username = some nm → nm ≠ "" →
          getSessionId env = some ("username_" ++ nm)))) ∧
    (env.urlSession = none → env.authLocal = .absent → env.authSession = .absent →
      env.legacyLocal = none → env.legacySession = none → getSessionId env = none) := by
  refine ⟨?_, ?_, ?_⟩
  · intro hurl hne
    simp [getSessionId, hurl, strTruthy, hne]
  · intro hfalse hfs hauth huser hsid
    constructor
    · intro n hid hn0
      simp [getSessionId, hfalse, hfs, resolveStoredAuth, hauth, huser, hid,
        uidTruthy, hn0]
    · intro hut nm hnm hne
      have hu2 : strTruthy (some nm) = true := by simp [strTruthy, hne]
      simp [getSessionId, hfalse, hfs, resolveStoredAuth, hauth, huser, hut, hnm, hu2]
  · intro h1 h2 h3 h4 h5
    simp [getSessionId, h1, h2, h3, firstStored, resolveStoredAuth, legacyOf, h4, h5,
      strTruthy]

def userFixA : AuthUser := { id := some 7, username := some "alice" }

def authFixA : AuthRecord := { authenticated := true, user := some userFixA, sessionId := none }

def userFixB : AuthUser := { id := none, username := some "alice" }

def authFixB : AuthRecord := { authenticated := true, user := some userFixB, sessionId := none }

/-- URL parameter, stored auth record, and legacy key all present at once. -/
def envAll : ResolverEnv :=
  { urlSession := some "urlsess", authLocal := .record authFixA, authSession := .absent,
    legacyLocal := some "legacy", legacySession := none }

def envStoredId : ResolverEnv :=
  { urlSession := none, authLocal := .record authFixA, authSession := .absent,
    legacyLocal := none, legacySession := none }

def envStoredName : ResolverEnv :=
  { urlSession := none, authLocal := .record authFixB, authSession := .absent,
    legacyLocal := none, legacySession := none }

def envEmpty : ResolverEnv :=
  { urlSession := none, authLocal := .absent, authSession := .absent,
    legacyLocal := none, legacySession := none }

/-- C1: with a committed snapshot readable through `currentUCORef`, two
field-update frames handled back-to-back with no intervening render leave the
synchronously readable reference holding both merges cumulatively — the
second delta is applied to the state the first delta produced, even though
the React-state copy (`uco`) is still stale. -/
theorem read_after_write_two_deltas (sid : Option String) (s : SyncState) (u : UCOv15)
    (c1 c2 : String) (u1 u2 : Obj) (t1 t2 : Nat)
    (href : s.ref = some u) (h1 : c1 ≠ "") (h2 : c2 ≠ "") :
    (runE sid s [.recv (.fieldUpdate c1 u1) t1, .recv (.fieldUpdate c2 u2) t2]).1.ref =
      some (applyFieldUpdate (applyFieldUpdate u c1 u1 t1) c2 u2 t2) := by
  have e1 := handleMessage_fieldUpdate_existing sid s c1 u1 t1 u
    (by rw [href]; rfl) h1
  have e2 := handleMessage_fieldUpdate_existing sid
    { s with latest := some (applyFieldUpdate u c1 u1 t1),
             ref := some (applyFieldUpdate u c1 u1 t1) }
    c2 u2 t2 (applyFieldUpdate u c1 u1 t1) rfl h2
  simp [runE, stepE, e1, e2]

/-- C1 witness: snapshot with topic `{a:1,b:2}`, then deltas `{b:3}` and
`{c:4}` back-to-back; the ref holds the nested double merge. -/
theorem read_after_write_two_deltas_witness :
    (runE none stWithSnap [.recv (.fieldUpdate "topic" [("b", .vInt 3)]) 60,
        .recv (.fieldUpdate "topic" [("c", .vInt 4)]) 61]).1.ref =
      some (applyFieldUpdate
        (applyFieldUpdate snapFix "topic" [("b", .vInt 3)] 60)
        "topic" [("c", .vInt 4)] 61) :=
  read_after_write_two_deltas none stWithSnap snapFix "topic" "topic"
    [("b", .vInt 3)] [("c", .vInt 4)] 60 61 rfl (by decide) (by decide)

/-- C2: the field-update merge is shallow and update-keys-win on the named
component — every key lookup in the new component hits `updates` first and
falls back to the old component — and both sibling components keep exactly
their previous values.  (The embedding is pure: the input snapshot `u` is a
value and cannot be mutated; the source achieves this with a copied object.) -/
theorem field_update_shallow_merge (u : UCOv15) (comp : String) (upd : Obj) (now : Nat)
    (hc : comp = "user" ∨ comp = "topic" ∨ comp = "conversation") :
    (∀ k, vLookup (getComponent (applyFieldUpdate u comp upd now).data.components comp) k =
        altO (oLookup upd k) (vLookup (getComponent u.data.components comp) k)) ∧
    (∀ c', (c' = "user" ∨ c' = "topic" ∨ c' = "conversation") → c' ≠ comp →
      getComponent (applyFieldUpdate u comp upd now).data.components c' =
        getComponent u.data.components c') := by
  rcases hc with h | h | h <;> subst h <;> constructor <;>
    first
    | · intro k
        simp [applyFieldUpdate, getComponent, vLookup_spreadMerge]
    | · intro c' hc' hne
        rcases hc' with h' | h' | h' <;> subst h' <;>
          simp_all [applyFieldUpdate, getComponent]

/-- C2 witness: the spec's concrete example — topic `{a:1,b:2}` merged with
`{b:3,c:4}` yields exactly `{a:1,b:3,c:4}`, and `user`/`conversation` are
untouched. -/
theorem field_update_shallow_merge_witness :
    vLookup (getComponent (applyFieldUpdate snapFix "topic"
        [("b", .vInt 3), ("c", .vInt 4)] 60).data.components "topic") "a" =
      some (.vInt 1) ∧
    vLookup (getComponent (applyFieldUpdate snapFix "topic"
        [("b", .vInt 3), ("c", .vInt 4)] 60).data.components "topic") "b" =
      some (.vInt 3) ∧
    vLookup (getComponent (applyFieldUpdate snapFix "topic"
        [("b", .vInt 3), ("c", .vInt 4)] 60).data.components "topic") "c" =
      some (.vInt 4) ∧
    getComponent (applyFieldUpdate snapFix "topic"
        [("b", .vInt 3), ("c", .vInt 4)] 60).data.components "user" =
      getComponent snapFix.data.components "user" ∧
    getComponent (applyFieldUpdate snapFix "topic"
        [("b", .vInt 3), ("c", .vInt 4)] 60).data.components "conversation" =
      getComponent snapFix.data.components "conversation" :=
  ⟨((field_update_shallow_merge snapFix "topic" [("b", .vInt 3), ("c", .vInt 4)] 60
      (Or.inr (Or.inl rfl))).1 "a").trans rfl,
   ((field_update_shallow_merge snapFix "topic" [("b", .vInt 3), ("c", .vInt 4)] 60
      (Or.inr (Or.inl rfl))).1 "b").trans rfl,
   ((field_update_shallow_merge snapFix "topic" [("b", .vInt 3), ("c", .vInt 4)] 60
      (Or.inr (Or.inl rfl))).1 "c").trans rfl,
   (field_update_shallow_merge snapFix "topic" [("b", .vInt 3), ("c", .vInt 4)] 60
      (Or.inr (Or.inl rfl))).2 "user" (Or.inl rfl) (by decide),
   (field_update_shallow_merge snapFix "topic" [("b", .vInt 3), ("c", .vInt 4)] 60
      (Or.inr (Or.inl rfl))).2 "conversation" (Or.inr (Or.inr rfl)) (by decide)⟩

/-- C3 counterexample: a field-update frame delivered with no snapshot, whose
scheduled retry fires before any snapshot has arrived, produces a second
`requestInitialState()` send and schedules a second retry — the code retries
(and re-requests) repeatedly until a snapshot exists, so "exactly one
`requestInitialState()` call and a single bounded retry" is false. -/
theorem early_delta_single_retry_counterexample :
    ¬ (getStateCount (runE none stNoSnap
          [.recv deltaFix 0, .retryFire deltaFix 100]).2 = 1 ∧
       retryCount (runE none stNoSnap
          [.recv deltaFix 0, .retryFire deltaFix 100]).2 = 1) := by
  decide

/-- C3 amended: each attempt of a no-snapshot field update issues one
`requestInitialState()` and schedules one retry of the same delta; when the
snapshot arrives before the (first) retry fires, exactly one
`requestInitialState()` is sent, exactly one retry is scheduled, and the
fired retry merges the delta into the snapshot — the early delta is not
lost. -/
theorem early_delta_retry_not_lost (sid : Option String) (s : SyncState)
    (comp : String) (upd : Obj) (d : Value) (t1 t2 t3 : Nat)
    (hr : s.ref = none) (hu : s.uco = none) (hw : s.wsOpen = true) (hc : comp ≠ "")
    (ht : ¬ (t2 - s.lastUpdate < 100)) :
    getStateCount (runE sid s [.recv (.fieldUpdate comp upd) t1, .recv (.state d) t2,
        .retryFire (.fieldUpdate comp upd) t3]).2 = 1 ∧
    retryCount (runE sid s [.recv (.fieldUpdate comp upd) t1, .recv (.state d) t2,
        .retryFire (.fieldUpdate comp upd) t3]).2 = 1 ∧
    (runE sid s [.recv (.fieldUpdate comp upd) t1, .recv (.state d) t2,
        .retryFire (.fieldUpdate comp upd) t3]).1.ref =
      some (applyFieldUpdate (buildV15 d t2 sid) comp upd t3) := by
  have e1 := handleMessage_fieldUpdate_noState sid s comp upd t1
    (by rw [hr, hu]; rfl) hc
  have e2 := handleMessage_state_process sid s d t2 ht
  have e3 := handleMessage_fieldUpdate_existing sid
    { s with lastUpdate := t2, latest := some (buildV15 d t2 sid),
             ref := some (buildV15 d t2 sid) }
    comp upd t3 (buildV15 d t2 sid) rfl hc
  refine ⟨?_, ?_, ?_⟩ <;>
    simp only [runE, stepE, e1, e2, e3] <;>
    simp [requestInitialState, hw, getStateCount, retryCount]

/-- C3 amended witness: delta at 0, snapshot at 120, retry fires at 130. -/
theorem early_delta_retry_not_lost_witness :
    getStateCount (runE none stNoSnap [.recv deltaFix 0, .recv (.state stateA) 120,
        .retryFire deltaFix 130]).2 = 1 ∧
    retryCount (runE none stNoSnap [.recv deltaFix 0, .recv (.state stateA) 120,
        .retryFire deltaFix 130]).2 = 1 ∧
    (runE none stNoSnap [.recv deltaFix 0, .recv (.state stateA) 120,
        .retryFire deltaFix 130]).1.ref =
      some (applyFieldUpdate (buildV15 stateA 120 none) "topic"
        [("title", .vStr "Hello")] 130) :=
  early_delta_retry_not_lost none stNoSnap "topic" [("title", .vStr "Hello")]
    stateA 0 120 130 rfl rfl rfl (by decide) (by decide)

/-- C4 counterexample: two full-snapshot frames 50 ms apart (1000 and 1050)
on a fresh connection produce *two* derived-view recomputations and commits —
the first frame is processed immediately and committed, not discarded — so
"exactly one recomputation for every pair of frames within 100 ms of one
another" is false. -/
theorem debounce_single_recompute_counterexample :
    commitsOf (runE none stNoSnap [.recv (.state stateA) 1000,
        .recv (.state stateB) 1050, .debFire (.state stateB) 1150]).2 =
      [buildV15 stateA 1000 none, buildV15 stateB 1150 none] ∧
    ¬ ((commitsOf (runE none stNoSnap [.recv (.state stateA) 1000,
        .recv (.state stateB) 1050, .debFire (.state stateB) 1150]).2).length = 1) :=
  ⟨rfl, by decide⟩

/-- C4 amended: among full-snapshot frames that *both* arrive inside the
100 ms debounce window of the last processed snapshot (hence within 100 ms of
one another), only the latest survives: the earlier deferred frame's timer is
replaced (it is never processed), and when the deferred timer fires exactly
one recomputation/commit occurs, with the content built from the second
(later) frame. -/
theorem debounce_coalesce_amended (sid : Option String) (s : SyncState)
    (d1 d2 : Value) (T t1 t2 : Nat)
    (hL : s.lastUpdate = T) (h1 : t1 < T + 100) (h2 : t2 < T + 100) (hT : T ≤ t2) :
    commitsOf (runE sid s [.recv (.state d1) t1, .recv (.state d2) t2,
        .debFire (.state d2) (t2 + 100)]).2 = [buildV15 d2 (t2 + 100) sid] ∧
    (runE sid s [.recv (.state d1) t1, .recv (.state d2) t2]).1.debounce =
      some (Msg.state d2) ∧
    (runE sid s [.recv (.state d1) t1, .recv (.state d2) t2,
        .debFire (.state d2) (t2 + 100)]).1.debounce = none := by
  have e1 := handleMessage_state_debounce sid s d1 t1 (by omega)
  have e2 := handleMessage_state_debounce sid { s with debounce := some (Msg.state d1) }
    d2 t2 (by simp only []; omega)
  have e3 := handleMessage_state_process sid
    { s with debounce := some (Msg.state d2) } d2 (t2 + 100)
    (by simp only []; omega)
  refine ⟨?_, ?_, ?_⟩ <;>
    simp [runE, stepE, debounceFire, e1, e2, e3, commitsOf]

/-- C4 amended witness: last processed at 50, frames at 60 and 100, timer
fires at 200 — one commit, built from the second frame. -/
theorem debounce_coalesce_amended_witness :
    commitsOf (runE none stWithSnap [.recv (.state stateA) 60, .recv (.state stateB) 100,
        .debFire (.state stateB) 200]).2 = [buildV15 stateB 200 none] ∧
    (runE none stWithSnap [.recv (.state stateA) 60, .recv (.state stateB) 100]).1.debounce =
      some (Msg.state stateB) ∧
    (runE none stWithSnap [.recv (.state stateA) 60, .recv (.state stateB) 100,
        .debFire (.state stateB) 200]).1.debounce = none :=
  debounce_coalesce_amended none stWithSnap stateA stateB 50 60 100 rfl
    (by decide) (by decide) (by decide)

/-- C6 witness: with all three sources present the URL value wins; stored
auth yields `user_7` (or `username_alice` with a falsy id); nothing yields
`null`. -/
theorem session_precedence_witness :
    getSessionId envAll = some "urlsess" ∧
      getSessionId envStoredId = some ("user_" ++ toString (7 : Int)) ∧
      getSessionId envStoredName = some ("username_" ++ "alice") ∧
      getSessionId envEmpty = none :=
  ⟨(session_precedence envAll "urlsess" authFixA userFixA).1 rfl (by decide),
   ((session_precedence envStoredId "" authFixA userFixA).2.1 rfl rfl rfl rfl rfl).1
     7 rfl (by decide),
   ((session_precedence envStoredName "" authFixB userFixB).2.1 rfl rfl rfl rfl rfl).2
     rfl "alice" rfl (by decide),
   (session_precedence envEmpty "" authFixA userFixA).2.2 rfl rfl rfl rfl rfl⟩

end IntiSync
